import Mathlib

/-!
# Verification of the tv-webhook-server orchestration (src/main.py)

Shallow embedding of the webhook intake and external-call orchestration of
`src/main.py`.  Pure Python code is translated into executable Lean
definitions; the effects of external collaborators (the JSON parse
primitive `json.loads`, the OpenAI chat-completions call, the sqlite
insert, the Twilio WhatsApp post) are modelled as explicit inputs, since
the spec names them as external collaborators that are not specified
further.  Python exceptions are modelled with `Except PyErr`; a value
`Except.error e` of a modelled function means the corresponding Python
code raises at that point.

Conventions:
* JSON values are the inductive `Json`; Python floats/ints are modelled
  together as exact rationals (`Json.num : Rat`), which is faithful for
  every numeric literal occurring in the program (0, 0.9, 2.2, 2.5, 100).
* A Python dict that came from JSON is an association list
  (`Dict := List (String × Json)`) in insertion order; lookup takes the
  first binding, `setdefault` appends at the end when the key is absent,
  exactly like CPython dict insertion order.
* `pyUpper` (character-wise ASCII uppercasing) models Python
  `str.upper`; the two agree on ASCII, and every comparison performed by
  the program is against the ASCII literals "LONG"/"SHORT".
-/

/-- A JSON value, as produced by the external `json.loads` primitive. -/
inductive Json : Type where
  | null : Json
  | bool (b : Bool) : Json
  | num (q : Rat) : Json
  | str (s : String) : Json
  | arr (elems : List Json) : Json
  | obj (fields : List (String × Json)) : Json
deriving Repr

/-- A Python dict whose keys are strings (the shape of every payload and
advisory in `main.py`): an association list in insertion order. -/
abbrev Dict := List (String × Json)

/-- The Python exceptions that the modelled code can raise. -/
inductive PyErr : Type where
  | attributeError (msg : String) : PyErr
  | typeError (msg : String) : PyErr
deriving Repr, DecidableEq

/-- Dict lookup (`d.get(k)` / `d[k]` presence): first binding wins. -/
def dictGet : Dict → String → Option Json
  | [], _ => none
  | (k, v) :: rest, key => if k = key then some v else dictGet rest key

/-- Python `dict.setdefault(k, v)`: if `k` is present the dict is
unchanged, otherwise the pair `(k, v)` is appended at the end
(CPython insertion order). -/
def dictSetdefault (d : Dict) (k : String) (v : Json) : Dict :=
  if (dictGet d k).isSome then d else d ++ [(k, v)]

/-- Python truthiness of a JSON-derived value (`bool(x)`). -/
def truthy : Json → Bool
  | .null => false
  | .bool b => b
  | .num q => q ≠ 0
  | .str s => s ≠ ""
  | .arr xs => !xs.isEmpty
  | .obj kvs => !kvs.isEmpty

/-- Model of Python `str.upper` by character-wise ASCII uppercasing
(Python uppercases some non-ASCII characters that this model leaves
unchanged; every string the program compares the result against is
ASCII). -/
def pyUpper (s : String) : String :=
  String.mk (s.data.map Char.toUpper)

/-- The expression `(payload.get("signal") or "").upper()` (lines 76 and
166 of `src/main.py`).  `payload.get` yields Python `None` when the key
is absent; `x or ""` replaces any falsy value by `""`; `.upper()` raises
`AttributeError` when the remaining value is not a string. -/
def signal_upper (payload : Dict) : Except PyErr String :=
  let v : Json :=
    match dictGet payload "signal" with
    | none => Json.str ""
    | some w => if truthy w then w else Json.str ""
  match v with
  | .str s => .ok (pyUpper s)
  | _ => .error (.attributeError "object has no attribute upper")

/-- `default_gpt_fallback` (lines 75-87): the Fallback Policy.  Derives a
direction from the payload signal and returns the fixed conservative
advisory dict.  Raises `AttributeError` when the payload carries a
truthy non-string `signal` value, because of the `.upper()` call. -/
def default_gpt_fallback (payload : Dict) (reason : String) :
    Except PyErr Dict := do
  let sig ← signal_upper payload
  let direction :=
    if sig = "LONG" then "long" else if sig = "SHORT" then "short" else "long"
  pure [("action", Json.str "wait"),
        ("direction", Json.str direction),
        ("confidence", Json.num 0),
        ("risk_level", Json.str "high"),
        ("sl_pct", Json.num (mkRat 9 10)),
        ("tp_pct", Json.num (mkRat 22 10)),
        ("message_cn", Json.str (reason ++ "，建议手动确认趋势与关键位后再决定。")),
        ("checklist", Json.arr [Json.str "确认4H/1D方向",
                                Json.str "确认前高前低/关键位",
                                Json.str "确认波动与成交量是否异常"])]

/-- The `g.setdefault(...)` chain of `call_gpt_risk` (lines 165-172),
applied to the dict `g` parsed from the model output.  The default
argument of each `setdefault` is evaluated eagerly in Python, so the
direction expression on line 166 can raise even when `"direction"` is
already present in `g`. -/
def gpt_defaults_fill (payload : Dict) (g : Dict) : Except PyErr Dict := do
  let g := dictSetdefault g "action" (Json.str "wait")
  let s ← signal_upper payload
  let g := dictSetdefault g "direction"
      (Json.str (if s = "LONG" then "long" else "short"))
  let g := dictSetdefault g "confidence" (Json.num 0)
  let g := dictSetdefault g "risk_level" (Json.str "mid")
  let g := dictSetdefault g "sl_pct" (Json.num (mkRat 9 10))
  let g := dictSetdefault g "tp_pct" (Json.num (mkRat 25 10))
  let g := dictSetdefault g "message_cn" (Json.str "建议谨慎，等待更清晰的结构确认。")
  let g := dictSetdefault g "checklist"
      (Json.arr [Json.str "确认趋势方向", Json.str "确认关键位",
                 Json.str "确认波动是否异常"])
  pure g

/-- Outcome of the external OpenAI chat-completions call as observed by
`call_gpt_risk`.  `noKey`: `client is None` (no `OPENAI_API_KEY`).
`callRaises`: `client.chat.completions.create` raised.
`modelReturns p`: the call returned and `p` is the outcome of
`safe_json_loads` on the stripped message content — `none` when
`json.loads` raised (non-JSON text), `some v` when it returned the JSON
value `v` (note the text `null` yields `some Json.null`, which Python
sees as `None`, not a dict). -/
inductive GptEnv : Type where
  | noKey : GptEnv
  | callRaises : GptEnv
  | modelReturns (parsed : Option Json) : GptEnv

/-- Body of the `try` block of `call_gpt_risk` (lines 147-174) after the
external call returned with parse outcome `parsed`: `isinstance(g, dict)`
check, then the `setdefault` chain.  The non-dict branch calls
`default_gpt_fallback` from inside the `try`. -/
def call_gpt_risk_try (payload : Dict) (parsed : Option Json) :
    Except PyErr Dict :=
  match parsed with
  | some (.obj g) => gpt_defaults_fill payload g
  | _ => default_gpt_fallback payload "GPT输出非JSON"

/-- `call_gpt_risk` (lines 142-178).  The `if not client` shortcut is
outside the `try`, so an exception from that fallback escapes.  Any
exception inside the `try` (the external call itself, or the eagerly
evaluated direction default, or the non-JSON fallback) is caught by the
`except` branch, whose own `default_gpt_fallback` call can raise again
and then escapes the function. -/
def call_gpt_risk (payload : Dict) (env : GptEnv) : Except PyErr Dict :=
  match env with
  | .noKey => default_gpt_fallback payload "未配置OPENAI_API_KEY"
  | .callRaises => default_gpt_fallback payload "GPT调用异常"
  | .modelReturns parsed =>
      match call_gpt_risk_try payload parsed with
      | .ok g => .ok g
      | .error _ => default_gpt_fallback payload "GPT调用异常"

/-- The payload-normalization step of `handle_webhook` (lines 213-217).
`text` is the decoded, stripped request body; `parsed` is the outcome of
the external `json.loads` on it (`none` when it raised, so that
`safe_json_loads` returned `None`).  The code wraps the raw text only
when `payload is None`, which happens both on a parse failure and on the
body `null`; any other non-dict parse result flows into
`payload.setdefault`, which raises `AttributeError`. -/
def normalize_payload (text : String) (parsed : Option Json) (now : String) :
    Except PyErr Dict :=
  let payload : Json :=
    match parsed with
    | none => Json.obj [("raw", Json.str text)]
    | some .null => Json.obj [("raw", Json.str text)]
    | some v => v
  match payload with
  | .obj d => .ok (dictSetdefault d "recv_ts_utc" (Json.str now))
  | _ => .error (.attributeError "object has no attribute setdefault")

/-- One hexadecimal digit character (lower case), for escape rendering. -/
def hexDigit (n : Nat) : Char :=
  if n < 10 then Char.ofNat (48 + n) else Char.ofNat (87 + n)

/-- The opening curly bracket character. -/
def lbrace : Char := Char.ofNat 123

/-- The closing curly bracket character. -/
def rbrace : Char := Char.ofNat 125

/-- Decimal rendering of a rational, matching the way CPython renders the
numeric literals that occur in this program under `json.dumps` and `str`
(`0` as "0", `9/10` as "0.9", `11/5` as "2.2", `65000` as "65000").
Rationals without a terminating decimal expansion (which never arise
from the literals of `src/main.py`) are rendered as a fraction. -/
def ratToDecimalString (q : Rat) : String :=
  if q.den = 1 then toString q.num
  else
    match (List.range 40).find? (fun k => (10 : Nat) ^ k % q.den = 0) with
    | some k =>
        let n : Int := q.num * (((10 : Nat) ^ k / q.den : Nat) : Int)
        let sign := if n < 0 then "-" else ""
        let digits := toString n.natAbs
        let digits :=
          if digits.length ≤ k then
            String.mk (List.replicate (k + 1 - digits.length) '0') ++ digits
          else digits
        sign ++ digits.dropRight k ++ "." ++ digits.takeRight k
    | none => toString q.num ++ "/" ++ toString q.den

/-- JSON string escaping as performed by `json.dumps(..., ensure_ascii=False)`:
quote, backslash and control characters are escaped, everything else
(including non-ASCII) passes through. -/
def escapeJsonChar (c : Char) : String :=
  if c = '"' then "\\\""
  else if c = '\\' then "\\\\"
  else if c = '\n' then "\\n"
  else if c = '\t' then "\\t"
  else if c = '\r' then "\\r"
  else if c.toNat = 8 then "\\b"
  else if c.toNat = 12 then "\\f"
  else if c.toNat < 32 then
    "\\u00" ++ String.mk [hexDigit (c.toNat / 16), hexDigit (c.toNat % 16)]
  else String.singleton c

/-- Escape every character of a string for JSON output. -/
def escapeJsonString (s : String) : String :=
  String.join (s.data.map escapeJsonChar)

mutual

/-- Model of `json.dumps(v, ensure_ascii=False)` with CPython's default
separators (", " and ": "), preserving dict insertion order. -/
def json_dumps : Json → String
  | .null => "null"
  | .bool true => "true"
  | .bool false => "false"
  | .num q => ratToDecimalString q
  | .str s => "\"" ++ escapeJsonString s ++ "\""
  | .arr xs => "[" ++ dumpsElems xs ++ "]"
  | .obj kvs => String.singleton lbrace ++ dumpsFields kvs ++ String.singleton rbrace

/-- Comma-separated rendering of JSON array elements. -/
def dumpsElems : List Json → String
  | [] => ""
  | [x] => json_dumps x
  | x :: y :: xs => json_dumps x ++ ", " ++ dumpsElems (y :: xs)

/-- Comma-separated rendering of JSON object fields. -/
def dumpsFields : List (String × Json) → String
  | [] => ""
  | [(k, v)] => "\"" ++ escapeJsonString k ++ "\": " ++ json_dumps v
  | (k, v) :: y :: xs =>
      "\"" ++ escapeJsonString k ++ "\": " ++ json_dumps v ++ ", " ++ dumpsFields (y :: xs)

end

/-- Skip JSON whitespace. -/
def skipWs : List Char → List Char
  | c :: cs => if c = ' ' || c = '\n' || c = '\t' || c = '\r' then skipWs cs else c :: cs
  | [] => []

/-- Value of one hexadecimal digit character. -/
def hexVal (c : Char) : Option Nat :=
  if '0' ≤ c && c ≤ '9' then some (c.toNat - 48)
  else if 'a' ≤ c && c ≤ 'f' then some (c.toNat - 87)
  else if 'A' ≤ c && c ≤ 'F' then some (c.toNat - 55)
  else none

/-- Parse the body of a JSON string after the opening quote, unescaping
the escapes that `json.dumps` can emit; returns the string and the
remaining input after the closing quote. -/
def parseStrAux : Nat → List Char → List Char → Option (String × List Char)
  | 0, _, _ => none
  | _, [], _ => none
  | fuel + 1, c :: cs, acc =>
    if c = '"' then some (String.mk acc.reverse, cs)
    else if c = '\\' then
      match cs with
      | [] => none
      | e :: cs2 =>
        if e = '"' then parseStrAux fuel cs2 ('"' :: acc)
        else if e = '\\' then parseStrAux fuel cs2 ('\\' :: acc)
        else if e = '/' then parseStrAux fuel cs2 ('/' :: acc)
        else if e = 'n' then parseStrAux fuel cs2 ('\n' :: acc)
        else if e = 't' then parseStrAux fuel cs2 ('\t' :: acc)
        else if e = 'r' then parseStrAux fuel cs2 ('\r' :: acc)
        else if e = 'b' then parseStrAux fuel cs2 (Char.ofNat 8 :: acc)
        else if e = 'f' then parseStrAux fuel cs2 (Char.ofNat 12 :: acc)
        else if e = 'u' then
          match cs2 with
          | a :: b :: c3 :: d :: cs4 =>
            match hexVal a, hexVal b, hexVal c3, hexVal d with
            | some ha, some hb, some hc, some hd =>
                parseStrAux fuel cs4 (Char.ofNat (((ha * 16 + hb) * 16 + hc) * 16 + hd) :: acc)
            | _, _, _, _ => none
          | _ => none
        else none
    else parseStrAux fuel cs (c :: acc)

/-- Take a maximal run of decimal digits. -/
def takeDigits : List Char → List Char × List Char
  | [] => ([], [])
  | c :: cs =>
    if c.isDigit then
      let p := takeDigits cs
      (c :: p.1, p.2)
    else ([], c :: cs)

/-- Numeric value of a digit run. -/
def digitsToNat (ds : List Char) : Nat :=
  ds.foldl (fun a c => a * 10 + (c.toNat - 48)) 0

/-- Parse a JSON number (integer or terminating decimal, no exponent —
`json.dumps` emits no exponent for any value of this program). -/
def parseNum (cs : List Char) : Option (Json × List Char) :=
  let p := match cs with
    | '-' :: r => (true, r)
    | _ => (false, cs)
  let neg := p.1
  let dp := takeDigits p.2
  if dp.1.isEmpty then none
  else
    match dp.2 with
    | '.' :: cs2 =>
      let fp := takeDigits cs2
      if fp.1.isEmpty then none
      else
        let denom : Nat := 10 ^ fp.1.length
        let n : Nat := digitsToNat dp.1 * denom + digitsToNat fp.1
        let q : Rat := mkRat n denom
        some (.num (if neg then -q else q), fp.2)
    | rest =>
        let q : Rat := mkRat (digitsToNat dp.1) 1
        some (.num (if neg then -q else q), rest)

mutual

/-- Fuel-bounded recursive-descent parse of one JSON value; a model of
the external `json.loads` primitive, used to state and witness the
read-back direction of the persistence round trip. -/
def parseValue : Nat → List Char → Option (Json × List Char)
  | 0, _ => none
  | fuel + 1, cs =>
    match skipWs cs with
    | [] => none
    | c :: rest =>
      if c = '"' then
        (parseStrAux (rest.length + 1) rest []).map (fun p => (Json.str p.1, p.2))
      else if c = '[' then
        match skipWs rest with
        | ']' :: r2 => some (Json.arr [], r2)
        | r2 => (parseArrItems fuel r2).map (fun p => (Json.arr p.1, p.2))
      else if c = lbrace then
        let r2 := skipWs rest
        if r2.head? = some rbrace then some (Json.obj [], r2.tail)
        else (parseObjItems fuel r2).map (fun p => (Json.obj p.1, p.2))
      else if c = 'n' then
        if ['u', 'l', 'l'].isPrefixOf rest then some (Json.null, rest.drop 3) else none
      else if c = 't' then
        if ['r', 'u', 'e'].isPrefixOf rest then some (Json.bool true, rest.drop 3) else none
      else if c = 'f' then
        if ['a', 'l', 's', 'e'].isPrefixOf rest then some (Json.bool false, rest.drop 4) else none
      else if c = '-' || c.isDigit then parseNum (c :: rest)
      else none

/-- Parse the items of a nonempty JSON array up to the closing bracket. -/
def parseArrItems : Nat → List Char → Option (List Json × List Char)
  | 0, _ => none
  | fuel + 1, cs => do
    let (v, cs2) ← parseValue fuel cs
    match skipWs cs2 with
    | ',' :: cs3 => (parseArrItems fuel cs3).map (fun p => (v :: p.1, p.2))
    | ']' :: cs3 => some ([v], cs3)
    | _ => none

/-- Parse the fields of a nonempty JSON object up to the closing bracket. -/
def parseObjItems : Nat → List Char → Option (List (String × Json) × List Char)
  | 0, _ => none
  | fuel + 1, cs =>
    match skipWs cs with
    | '"' :: cs2 => do
      let (k, cs3) ← parseStrAux (cs2.length + 1) cs2 []
      match skipWs cs3 with
      | ':' :: cs4 => do
        let (v, cs5) ← parseValue fuel cs4
        match skipWs cs5 with
        | ',' :: cs6 => (parseObjItems fuel cs6).map (fun p => ((k, v) :: p.1, p.2))
        | cs6 =>
          if cs6.head? = some rbrace then some ([(k, v)], cs6.tail) else none
      | _ => none
    | _ => none

end

/-- Model of `json.loads`: parse a whole string as one JSON value. -/
def json_parse (s : String) : Option Json :=
  match parseValue (s.length + 1) s.data with
  | some (v, rest) => if (skipWs rest).isEmpty then some v else none
  | none => none

/-- Python `str()` of a JSON-derived value as interpolated by the
f-string of `format_whatsapp`.  Scalars are rendered exactly as CPython
renders the values arising in this program; containers are rendered in
JSON notation as an approximation of Python `repr` (no claim inspects
the message text, only whether formatting raises). -/
def pyStr (v : Json) : String :=
  match v with
  | .null => "None"
  | .bool true => "True"
  | .bool false => "False"
  | .num q => ratToDecimalString q
  | .str s => s
  | v => json_dumps v

/-- `g.get(k)` rendered through the f-string: absent keys print as
Python `None`. -/
def pyStrGet (g : Dict) (k : String) : String :=
  pyStr ((dictGet g k).getD Json.null)

/-- `format_whatsapp` (lines 90-103).  The expression
`(g.get("checklist") or [])[:3]` slices a list or a string but raises
`TypeError` on any other truthy value, and `" | ".join(...)` raises
`TypeError` when an item of the sliced list is not a string. -/
def format_whatsapp (payload : Dict) (g : Dict) : Except PyErr String := do
  let _ticker := (dictGet payload "ticker").getD ((dictGet payload "symbol").getD (Json.str "BTCUSDT.P"))
  let _tf := (dictGet payload "interval").getD ((dictGet payload "timeframe").getD (Json.str "15m"))
  let sig := (dictGet payload "signal").getD ((dictGet payload "raw").getD (Json.str "UNKNOWN"))
  let price := (dictGet payload "price").getD ((dictGet payload "close").getD (Json.str ""))
  let cl : Json :=
    match dictGet g "checklist" with
    | none => Json.arr []
    | some v => if truthy v then v else Json.arr []
  let items : List Json ←
    match cl with
    | .arr xs => pure (xs.take 3)
    | .str s => pure ((s.data.take 3).map (fun c => Json.str (String.singleton c)))
    | _ => Except.error (.typeError "object is not subscriptable")
  let strs : List String ←
    items.mapM (fun j =>
      match j with
      | Json.str s => Except.ok s
      | _ => Except.error (.typeError "sequence item: expected str instance"))
  pure ("信号: " ++ pyStr sig ++ "\n价: " ++ pyStr price
    ++ "\n建议: " ++ pyStrGet g "action" ++ " | 风险: " ++ pyStrGet g "risk_level"
    ++ " | 置信度: " ++ pyStrGet g "confidence"
    ++ "\nSL: " ++ pyStrGet g "sl_pct" ++ "%  TP: " ++ pyStrGet g "tp_pct" ++ "%\n"
    ++ pyStrGet g "message_cn"
    ++ "\n检查: " ++ String.intercalate " | " strs)

/-- Model of `traceback.format_exc()` (line 223): a textual rendering of
the exception being handled; in particular it is never the empty
string. -/
def traceback_format_exc : PyErr → String
  | .attributeError m => "AttributeError: " ++ m
  | .typeError m => "TypeError: " ++ m

/-- One persisted row of the `signals` table (columns of `init_db`,
lines 121-136, in insert order of line 230).  `ts_utc` holds the value
`payload["recv_ts_utc"]` exactly as bound by the insert. -/
structure DbRow : Type where
  ts_utc : Json
  path : String
  raw_text : String
  json_payload : String
  gpt_json : String
  error : String
deriving Repr

/-- Behaviour of the external collaborators during one request:
the OpenAI call outcome, whether the sqlite insert+commit succeeds,
whether all four Twilio credentials are configured, and whether the
Twilio post succeeds. -/
structure Env : Type where
  gpt : GptEnv
  dbOk : Bool
  twilioConfigured : Bool
  waOk : Bool

/-- Observable side-effect attempts of one request, in execution order. -/
inductive Effect : Type where
  | dbAttempt (ok : Bool) : Effect
  | waAttempt (ok : Bool) : Effect
deriving Repr, DecidableEq

/-- Result of one `handle_webhook` run: the value returned to the HTTP
framework (`Except.error` meaning an exception escaped the handler and
becomes an HTTP 500), the `signals` table after the run, and the
side-effect attempts in order. -/
structure RunResult : Type where
  response : Except PyErr Dict
  db : List DbRow
  effects : List Effect

/-- The `try`/`except` around the GPT step (lines 220-224): on an
exception from `call_gpt_risk`, `error_text` is set to the formatted
traceback and `g` is recomputed by `default_gpt_fallback`, whose own
exception (if any) escapes the handler.  Returns `(g, error_text)`. -/
def gpt_step (payload : Dict) (env : GptEnv) : Except PyErr (Dict × String) :=
  match call_gpt_risk payload env with
  | .ok g => .ok (g, "")
  | .error e =>
      match default_gpt_fallback payload "风控模块异常" with
      | .ok g => .ok (g, traceback_format_exc e)
      | .error e2 => .error e2

/-- The row inserted by lines 229-239. -/
def db_row (payload g : Dict) (path text error_text : String) (ts : Json) : DbRow :=
  { ts_utc := ts, path := path, raw_text := text,
    json_payload := json_dumps (Json.obj payload),
    gpt_json := json_dumps (Json.obj g),
    error := error_text }

/-- `handle_webhook` (lines 204-251), driven by the external outcomes in
`env`, starting from table contents `db0`.  `text` is the decoded,
stripped body; `parsed` is the outcome of `json.loads` on it; `now` is
`datetime.utcnow().isoformat()`.  The DB `try` swallows any insert
failure; the WhatsApp `try` swallows any formatting or sending failure;
`send_whatsapp` is a silent no-op when the Twilio credentials are not
all configured. -/
def handle_webhook (text : String) (parsed : Option Json) (now path : String)
    (env : Env) (db0 : List DbRow) : RunResult :=
  match normalize_payload text parsed now with
  | .error e => { response := .error e, db := db0, effects := [] }
  | .ok payload =>
    match gpt_step payload env.gpt with
    | .error e => { response := .error e, db := db0, effects := [] }
    | .ok (g, error_text) =>
      let dbIns : Option DbRow :=
        match dictGet payload "recv_ts_utc", env.dbOk with
        | some ts, true => some (db_row payload g path text error_text ts)
        | _, _ => none
      let waSucceeded : Bool :=
        match format_whatsapp payload g with
        | .error _ => false
        | .ok _ => !(env.twilioConfigured && !env.waOk)
      { response := .ok [("ok", Json.bool true), ("gpt", Json.obj g)],
        db := db0 ++ dbIns.toList,
        effects := [.dbAttempt dbIns.isSome, .waAttempt waSucceeded] }

/-- The eight Advisory field names of the fixed schema. -/
def advisory_keys : List String :=
  ["action", "direction", "confidence", "risk_level", "sl_pct", "tp_pct",
   "message_cn", "checklist"]

/-- Type-correctness of an Advisory dict per the data model: action in
enter/wait, direction in long/short, confidence an integer 0-100,
risk_level in low/mid/high, sl_pct and tp_pct positive numbers,
message a string, checklist a sequence of strings. -/
def advisory_type_correct (g : Dict) : Bool :=
  (match dictGet g "action" with
   | some (Json.str s) => s = "enter" || s = "wait"
   | _ => false)
  && (match dictGet g "direction" with
   | some (Json.str s) => s = "long" || s = "short"
   | _ => false)
  && (match dictGet g "confidence" with
   | some (Json.num q) => q.den = 1 && decide (0 ≤ q) && decide (q ≤ 100)
   | _ => false)
  && (match dictGet g "risk_level" with
   | some (Json.str s) => s = "low" || s = "mid" || s = "high"
   | _ => false)
  && (match dictGet g "sl_pct" with
   | some (Json.num q) => decide (0 < q)
   | _ => false)
  && (match dictGet g "tp_pct" with
   | some (Json.num q) => decide (0 < q)
   | _ => false)
  && (match dictGet g "message_cn" with
   | some (Json.str _) => true
   | _ => false)
  && (match dictGet g "checklist" with
   | some (Json.arr xs) => xs.all (fun x => match x with | Json.str _ => true | _ => false)
   | _ => false)

/-- The value produced by the Fallback Policy for a given derived
direction and reason: the body of `default_gpt_fallback` after the
signal has been uppercased. -/
def fallback_advisory (direction reason : String) : Dict :=
  [("action", Json.str "wait"),
   ("direction", Json.str direction),
   ("confidence", Json.num 0),
   ("risk_level", Json.str "high"),
   ("sl_pct", Json.num (mkRat 9 10)),
   ("tp_pct", Json.num (mkRat 22 10)),
   ("message_cn", Json.str (reason ++ "，建议手动确认趋势与关键位后再决定。")),
   ("checklist", Json.arr [Json.str "确认4H/1D方向",
                           Json.str "确认前高前低/关键位",
                           Json.str "确认波动与成交量是否异常"])]

/-- The value of the `setdefault` chain of `call_gpt_risk` on the model
output `g0` once the eagerly evaluated direction default has been
computed from the uppercased signal `s`. -/
def fill_chain (g0 : Dict) (s : String) : Dict :=
  dictSetdefault (dictSetdefault (dictSetdefault (dictSetdefault (dictSetdefault
    (dictSetdefault (dictSetdefault (dictSetdefault g0
      "action" (Json.str "wait"))
      "direction" (Json.str (if s = "LONG" then "long" else "short")))
      "confidence" (Json.num 0))
      "risk_level" (Json.str "mid"))
      "sl_pct" (Json.num (mkRat 9 10)))
      "tp_pct" (Json.num (mkRat 25 10)))
      "message_cn" (Json.str "建议谨慎，等待更清晰的结构确认。"))
      "checklist" (Json.arr [Json.str "确认趋势方向", Json.str "确认关键位",
                             Json.str "确认波动是否异常"])

/-- Whether a `safe_json_loads` outcome is a Python dict
(`isinstance(g, dict)` on line 160; the outcome `none` is Python `None`). -/
def parsed_is_dict : Option Json → Bool
  | some (.obj _) => true
  | _ => false

/-- The model output used by the round-trip witness: a complete
advisory, so the setdefault chain forwards it unchanged. -/
def sample_model_output : Dict :=
  [("action", Json.str "enter"), ("direction", Json.str "long"),
   ("confidence", Json.num 55), ("risk_level", Json.str "low"),
   ("sl_pct", Json.num (mkRat 9 10)), ("tp_pct", Json.num (mkRat 22 10)),
   ("message_cn", Json.str "ok"), ("checklist", Json.arr [Json.str "a"])]

/-- The normalized payload of the round-trip witness run. -/
def sample_payload : Dict :=
  [("signal", Json.str "LONG"), ("recv_ts_utc", Json.str "2026-01-01T00:00:00")]

/-! ## Basic dictionary lemmas -/

theorem dictGet_append_self (d : Dict) (k : String) (v : Json)
    (h : dictGet d k = none) : dictGet (d ++ [(k, v)]) k = some v := by
  induction d with
  | nil => simp [dictGet]
  | cons kv rest ih =>
      obtain ⟨k0, v0⟩ := kv
      by_cases hk : k0 = k
      · simp [dictGet, hk] at h
      · simp only [dictGet, List.cons_append, hk, if_neg hk] at h ⊢
        exact ih h

theorem dictGet_append_ne (d : Dict) (k k' : String) (v : Json)
    (h : k' ≠ k) : dictGet (d ++ [(k, v)]) k' = dictGet d k' := by
  induction d with
  | nil =>
      show (if k = k' then some v else dictGet [] k') = dictGet ([] : Dict) k'
      rw [if_neg (fun hh => h hh.symm)]
  | cons kv rest ih =>
      obtain ⟨k0, v0⟩ := kv
      by_cases hk : k0 = k'
      · simp [dictGet, hk]
      · simp only [dictGet, List.cons_append, hk, if_neg hk]
        exact ih

theorem dictGet_setdefault_self (d : Dict) (k : String) (v : Json) :
    dictGet (dictSetdefault d k v) k = some ((dictGet d k).getD v) := by
  unfold dictSetdefault
  cases h : dictGet d k with
  | none => simp [h, dictGet_append_self d k v h]
  | some w => simp [h]

theorem dictGet_setdefault_ne (d : Dict) (k k' : String) (v : Json)
    (h : k' ≠ k) : dictGet (dictSetdefault d k v) k' = dictGet d k' := by
  unfold dictSetdefault
  cases hh : dictGet d k with
  | none => simp [dictGet_append_ne d k k' v h]
  | some w => simp

theorem dictGet_setdefault_preserve (d : Dict) (k k' : String) (v w : Json)
    (h : dictGet d k' = some w) :
    dictGet (dictSetdefault d k v) k' = some w := by
  by_cases hk : k' = k
  · subst hk
    rw [dictGet_setdefault_self, h]
    rfl
  · rw [dictGet_setdefault_ne d k k' v hk]
    exact h

theorem dictGet_setdefault_isSome (d : Dict) (k k' : String) (v : Json)
    (h : (dictGet d k').isSome = true) :
    (dictGet (dictSetdefault d k v) k').isSome = true := by
  cases hw : dictGet d k' with
  | none => rw [hw] at h; simp at h
  | some w => rw [dictGet_setdefault_preserve d k k' v w hw]; rfl

theorem dictGet_setdefault_key_isSome (d : Dict) (k : String) (v : Json) :
    (dictGet (dictSetdefault d k v) k).isSome = true := by
  rw [dictGet_setdefault_self]; rfl

/-- C2 (amended): the Payload Normalizer completes and yields a mapping
carrying the receipt-timestamp key `recv_ts_utc` whenever `json.loads`
raised on the body (invalid JSON, empty body) or produced Python `None`
(body `null`) — wrapping the raw text under the single fallback key
`"raw"` — or produced a dict; but when the body parses to a JSON
non-object (array, number, string, boolean) the normalizer raises
`AttributeError` instead of wrapping it, so those inputs are rejected
with an HTTP 500. -/
theorem normalizer_total_on_objects (text now : String) :
    (normalize_payload text none now =
      .ok [("raw", Json.str text), ("recv_ts_utc", Json.str now)])
  ∧ (normalize_payload text (some Json.null) now =
      .ok [("raw", Json.str text), ("recv_ts_utc", Json.str now)])
  ∧ (∀ d : Dict, ∃ p : Dict,
      normalize_payload text (some (Json.obj d)) now = .ok p ∧
      (dictGet p "recv_ts_utc").isSome = true)
  ∧ (∀ v : Json, v ≠ Json.null → (∀ d : Dict, v ≠ Json.obj d) →
      normalize_payload text (some v) now =
        .error (.attributeError "object has no attribute setdefault")) := by
  refine ⟨rfl, rfl, ?_, ?_⟩
  · intro d
    exact ⟨dictSetdefault d "recv_ts_utc" (Json.str now), rfl,
           dictGet_setdefault_key_isSome d "recv_ts_utc" (Json.str now)⟩
  · intro v hnull hobj
    cases v with
    | null => exact absurd rfl hnull
    | obj d => exact absurd rfl (hobj d)
    | bool b => rfl
    | num q => rfl
    | str s => rfl
    | arr xs => rfl

/-- Witness for `normalizer_total_on_objects` at concrete inputs: the
body `TV_FORCE_TEST` (invalid JSON) is wrapped, a dict body keeps its
timestamp key, and the body `123` (valid JSON, not an object) raises. -/
theorem normalizer_total_on_objects_wit :
    (normalize_payload "TV_FORCE_TEST" none "T" =
      .ok [("raw", Json.str "TV_FORCE_TEST"), ("recv_ts_utc", Json.str "T")])
  ∧ (normalize_payload "123" (some (Json.num 123)) "T" =
      .error (.attributeError "object has no attribute setdefault")) := by
  have h := normalizer_total_on_objects "TV_FORCE_TEST" "T"
  have h2 := (normalizer_total_on_objects "123" "T").2.2.2 (Json.num 123)
    (by intro hc; cases hc) (by intro d hc; cases hc)
  exact ⟨h.1, h2⟩

/-- C2 counterexample: the byte input `123` is valid JSON but not a JSON
object; the claim says the normalizer completes and wraps the raw text,
but the code raises `AttributeError` at `payload.setdefault`, so this
input is rejected. -/
theorem normalizer_nonobject_cx :
    normalize_payload "123" (some (Json.num 123)) "T" =
      .error (.attributeError "object has no attribute setdefault") := rfl

/-- C9: the normalizer injects the UTC receipt timestamp only when the
parsed payload does not already carry the key `recv_ts_utc`; a
pre-existing value is left unchanged (the whole mapping is unchanged),
and every other key — including unknown keys — passes through with its
value unmodified. -/
theorem recv_ts_frame (text now : String) (d : Dict) :
    ∃ p : Dict, normalize_payload text (some (Json.obj d)) now = .ok p
  ∧ ((dictGet d "recv_ts_utc").isSome = true → p = d)
  ∧ (dictGet d "recv_ts_utc" = none →
      p = d ++ [("recv_ts_utc", Json.str now)] ∧
      dictGet p "recv_ts_utc" = some (Json.str now))
  ∧ (∀ k : String, k ≠ "recv_ts_utc" → dictGet p k = dictGet d k) := by
  refine ⟨dictSetdefault d "recv_ts_utc" (Json.str now), rfl, ?_, ?_, ?_⟩
  · intro h
    unfold dictSetdefault
    simp [h]
  · intro h
    constructor
    · unfold dictSetdefault
      simp [h]
    · rw [dictGet_setdefault_self, h]
      rfl
  · intro k hk
    exact dictGet_setdefault_ne d "recv_ts_utc" k (Json.str now) hk

/-- Witness for `recv_ts_frame`: a payload already carrying
`recv_ts_utc` keeps it (and stays unchanged), and an unknown key passes
through. -/
theorem recv_ts_frame_wit :
    ∃ p : Dict,
      normalize_payload "b" (some (Json.obj
        [("recv_ts_utc", Json.str "2024-01-01T00:00:00"), ("mystery", Json.num 7)])) "T" = .ok p
    ∧ p = [("recv_ts_utc", Json.str "2024-01-01T00:00:00"), ("mystery", Json.num 7)]
    ∧ dictGet p "mystery" = some (Json.num 7) := by
  obtain ⟨p, hp, hkeep, _, hframe⟩ := recv_ts_frame "b" "T"
    [("recv_ts_utc", Json.str "2024-01-01T00:00:00"), ("mystery", Json.num 7)]
  have hd := hkeep (by rfl)
  refine ⟨p, hp, hd, ?_⟩
  rw [hd]
  rfl

/-! ## Advisory-layer lemmas -/

theorem default_gpt_fallback_eq (payload : Dict) (reason s : String)
    (h : signal_upper payload = .ok s) :
    default_gpt_fallback payload reason =
      .ok (fallback_advisory
        (if s = "LONG" then "long" else if s = "SHORT" then "short" else "long")
        reason) := by
  unfold default_gpt_fallback fallback_advisory
  rw [h]
  rfl

theorem default_gpt_fallback_err (payload : Dict) (reason : String) (e : PyErr)
    (h : signal_upper payload = .error e) :
    default_gpt_fallback payload reason = .error e := by
  unfold default_gpt_fallback
  rw [h]
  rfl

theorem gpt_defaults_fill_eq (payload g0 : Dict) (s : String)
    (h : signal_upper payload = .ok s) :
    gpt_defaults_fill payload g0 = .ok (fill_chain g0 s) := by
  unfold gpt_defaults_fill fill_chain
  rw [h]
  rfl

theorem gpt_defaults_fill_err (payload g0 : Dict) (e : PyErr)
    (h : signal_upper payload = .error e) :
    gpt_defaults_fill payload g0 = .error e := by
  unfold gpt_defaults_fill
  rw [h]
  rfl

theorem signal_upper_of_absent (payload : Dict)
    (h : dictGet payload "signal" = none) : signal_upper payload = .ok "" := by
  unfold signal_upper
  rw [h]
  rfl

theorem call_gpt_risk_model_obj (payload m : Dict) (s : String)
    (h : signal_upper payload = .ok s) :
    call_gpt_risk payload (.modelReturns (some (Json.obj m))) =
      .ok (fill_chain m s) := by
  show (match gpt_defaults_fill payload m with
        | .ok g => Except.ok g
        | .error _ => default_gpt_fallback payload "GPT调用异常") = _
  rw [gpt_defaults_fill_eq payload m s h]

theorem fill_chain_preserve (g0 : Dict) (s : String) (k : String) (v : Json)
    (h : dictGet g0 k = some v) : dictGet (fill_chain g0 s) k = some v := by
  unfold fill_chain
  iterate 8 apply dictGet_setdefault_preserve
  exact h

theorem fill_chain_action (g0 : Dict) (s : String)
    (h : dictGet g0 "action" = none) :
    dictGet (fill_chain g0 s) "action" = some (Json.str "wait") := by
  unfold fill_chain
  iterate 7 apply dictGet_setdefault_preserve
  rw [dictGet_setdefault_self, h]
  rfl

theorem fill_chain_direction (g0 : Dict) (s : String)
    (h : dictGet g0 "direction" = none) :
    dictGet (fill_chain g0 s) "direction" =
      some (Json.str (if s = "LONG" then "long" else "short")) := by
  unfold fill_chain
  iterate 6 apply dictGet_setdefault_preserve
  rw [dictGet_setdefault_self,
      dictGet_setdefault_ne _ "action" "direction" _ (by decide), h]
  rfl

theorem fill_chain_confidence (g0 : Dict) (s : String)
    (h : dictGet g0 "confidence" = none) :
    dictGet (fill_chain g0 s) "confidence" = some (Json.num 0) := by
  unfold fill_chain
  iterate 5 apply dictGet_setdefault_preserve
  rw [dictGet_setdefault_self,
      dictGet_setdefault_ne _ "direction" "confidence" _ (by decide),
      dictGet_setdefault_ne _ "action" "confidence" _ (by decide), h]
  rfl

theorem fill_chain_risk_level (g0 : Dict) (s : String)
    (h : dictGet g0 "risk_level" = none) :
    dictGet (fill_chain g0 s) "risk_level" = some (Json.str "mid") := by
  unfold fill_chain
  iterate 4 apply dictGet_setdefault_preserve
  rw [dictGet_setdefault_self,
      dictGet_setdefault_ne _ "confidence" "risk_level" _ (by decide),
      dictGet_setdefault_ne _ "direction" "risk_level" _ (by decide),
      dictGet_setdefault_ne _ "action" "risk_level" _ (by decide), h]
  rfl

theorem fill_chain_sl_pct (g0 : Dict) (s : String)
    (h : dictGet g0 "sl_pct" = none) :
    dictGet (fill_chain g0 s) "sl_pct" = some (Json.num (mkRat 9 10)) := by
  unfold fill_chain
  iterate 3 apply dictGet_setdefault_preserve
  rw [dictGet_setdefault_self,
      dictGet_setdefault_ne _ "risk_level" "sl_pct" _ (by decide),
      dictGet_setdefault_ne _ "confidence" "sl_pct" _ (by decide),
      dictGet_setdefault_ne _ "direction" "sl_pct" _ (by decide),
      dictGet_setdefault_ne _ "action" "sl_pct" _ (by decide), h]
  rfl

theorem fill_chain_tp_pct (g0 : Dict) (s : String)
    (h : dictGet g0 "tp_pct" = none) :
    dictGet (fill_chain g0 s) "tp_pct" = some (Json.num (mkRat 25 10)) := by
  unfold fill_chain
  iterate 2 apply dictGet_setdefault_preserve
  rw [dictGet_setdefault_self,
      dictGet_setdefault_ne _ "sl_pct" "tp_pct" _ (by decide),
      dictGet_setdefault_ne _ "risk_level" "tp_pct" _ (by decide),
      dictGet_setdefault_ne _ "confidence" "tp_pct" _ (by decide),
      dictGet_setdefault_ne _ "direction" "tp_pct" _ (by decide),
      dictGet_setdefault_ne _ "action" "tp_pct" _ (by decide), h]
  rfl

theorem fill_chain_message (g0 : Dict) (s : String)
    (h : dictGet g0 "message_cn" = none) :
    dictGet (fill_chain g0 s) "message_cn" =
      some (Json.str "建议谨慎，等待更清晰的结构确认。") := by
  unfold fill_chain
  apply dictGet_setdefault_preserve
  rw [dictGet_setdefault_self,
      dictGet_setdefault_ne _ "tp_pct" "message_cn" _ (by decide),
      dictGet_setdefault_ne _ "sl_pct" "message_cn" _ (by decide),
      dictGet_setdefault_ne _ "risk_level" "message_cn" _ (by decide),
      dictGet_setdefault_ne _ "confidence" "message_cn" _ (by decide),
      dictGet_setdefault_ne _ "direction" "message_cn" _ (by decide),
      dictGet_setdefault_ne _ "action" "message_cn" _ (by decide), h]
  rfl

theorem fill_chain_checklist (g0 : Dict) (s : String)
    (h : dictGet g0 "checklist" = none) :
    dictGet (fill_chain g0 s) "checklist" =
      some (Json.arr [Json.str "确认趋势方向", Json.str "确认关键位",
                      Json.str "确认波动是否异常"]) := by
  unfold fill_chain
  rw [dictGet_setdefault_self,
      dictGet_setdefault_ne _ "message_cn" "checklist" _ (by decide),
      dictGet_setdefault_ne _ "tp_pct" "checklist" _ (by decide),
      dictGet_setdefault_ne _ "sl_pct" "checklist" _ (by decide),
      dictGet_setdefault_ne _ "risk_level" "checklist" _ (by decide),
      dictGet_setdefault_ne _ "confidence" "checklist" _ (by decide),
      dictGet_setdefault_ne _ "direction" "checklist" _ (by decide),
      dictGet_setdefault_ne _ "action" "checklist" _ (by decide), h]
  rfl

theorem fill_chain_presence (g0 : Dict) (s : String) :
    ∀ k ∈ advisory_keys, (dictGet (fill_chain g0 s) k).isSome = true := by
  intro k hk
  simp only [advisory_keys, List.mem_cons, List.not_mem_nil, or_false] at hk
  unfold fill_chain
  rcases hk with rfl | rfl | rfl | rfl | rfl | rfl | rfl | rfl
  · iterate 7 apply dictGet_setdefault_isSome
    exact dictGet_setdefault_key_isSome _ _ _
  · iterate 6 apply dictGet_setdefault_isSome
    exact dictGet_setdefault_key_isSome _ _ _
  · iterate 5 apply dictGet_setdefault_isSome
    exact dictGet_setdefault_key_isSome _ _ _
  · iterate 4 apply dictGet_setdefault_isSome
    exact dictGet_setdefault_key_isSome _ _ _
  · iterate 3 apply dictGet_setdefault_isSome
    exact dictGet_setdefault_key_isSome _ _ _
  · iterate 2 apply dictGet_setdefault_isSome
    exact dictGet_setdefault_key_isSome _ _ _
  · apply dictGet_setdefault_isSome
    exact dictGet_setdefault_key_isSome _ _ _
  · exact dictGet_setdefault_key_isSome _ _ _

theorem derived_dir_or (s : String) :
    (if s = "LONG" then "long" else if s = "SHORT" then "short" else "long") = "long"
  ∨ (if s = "LONG" then "long" else if s = "SHORT" then "short" else "long") = "short" := by
  by_cases h1 : s = "LONG"
  · left; simp [h1]
  · by_cases h2 : s = "SHORT"
    · right; simp [h1, h2]
    · left; simp [h1, h2]

theorem call_gpt_risk_err (payload : Dict) (env : GptEnv) (e : PyErr)
    (h : signal_upper payload = .error e) :
    call_gpt_risk payload env = .error e := by
  cases env with
  | noKey => exact default_gpt_fallback_err _ _ e h
  | callRaises => exact default_gpt_fallback_err _ _ e h
  | modelReturns parsed =>
      have htry : call_gpt_risk_try payload parsed = .error e := by
        cases parsed with
        | none => exact default_gpt_fallback_err _ _ e h
        | some v =>
          cases v with
          | obj m => exact gpt_defaults_fill_err _ _ e h
          | null => exact default_gpt_fallback_err _ _ e h
          | bool b => exact default_gpt_fallback_err _ _ e h
          | num q => exact default_gpt_fallback_err _ _ e h
          | str s => exact default_gpt_fallback_err _ _ e h
          | arr xs => exact default_gpt_fallback_err _ _ e h
      show (match call_gpt_risk_try payload parsed with
            | .ok g => Except.ok g
            | .error _ => default_gpt_fallback payload "GPT调用异常") = _
      rw [htry]
      exact default_gpt_fallback_err _ _ e h

theorem call_gpt_risk_model_nonobj (payload : Dict) (parsed : Option Json) (s : String)
    (h : signal_upper payload = .ok s)
    (hno : parsed_is_dict parsed = false) :
    call_gpt_risk payload (.modelReturns parsed) =
      .ok (fallback_advisory
        (if s = "LONG" then "long" else if s = "SHORT" then "short" else "long")
        "GPT输出非JSON") := by
  have htry : call_gpt_risk_try payload parsed =
      default_gpt_fallback payload "GPT输出非JSON" := by
    cases parsed with
    | none => rfl
    | some v =>
      cases v with
      | obj m => simp [parsed_is_dict] at hno
      | null => rfl
      | bool b => rfl
      | num q => rfl
      | str s2 => rfl
      | arr xs => rfl
  show (match call_gpt_risk_try payload parsed with
        | .ok g => Except.ok g
        | .error _ => default_gpt_fallback payload "GPT调用异常") = _
  rw [htry, default_gpt_fallback_eq _ _ s h]

theorem fallback_advisory_presence (dir reason : String) :
    ∀ k ∈ advisory_keys, (dictGet (fallback_advisory dir reason) k).isSome = true := by
  intro k hk
  simp only [advisory_keys, List.mem_cons, List.not_mem_nil, or_false] at hk
  rcases hk with rfl | rfl | rfl | rfl | rfl | rfl | rfl | rfl <;> rfl

theorem fallback_advisory_type_correct (dir reason : String)
    (hdir : dir = "long" ∨ dir = "short") :
    advisory_type_correct (fallback_advisory dir reason) = true := by
  rcases hdir with rfl | rfl <;> rfl

/-- Every successful outcome of the Advisory Client is either a fallback
advisory (with a long/short direction) or the setdefault-filled model
output. -/
theorem call_gpt_risk_ok_shape (payload : Dict) (env : GptEnv) (s : String)
    (hs : signal_upper payload = .ok s) :
    (∃ dir reason, call_gpt_risk payload env = .ok (fallback_advisory dir reason)
        ∧ (dir = "long" ∨ dir = "short"))
  ∨ (∃ m : Dict, call_gpt_risk payload env = .ok (fill_chain m s)) := by
  cases env with
  | noKey =>
      left
      exact ⟨_, _, default_gpt_fallback_eq payload "未配置OPENAI_API_KEY" s hs,
             derived_dir_or s⟩
  | callRaises =>
      left
      exact ⟨_, _, default_gpt_fallback_eq payload "GPT调用异常" s hs,
             derived_dir_or s⟩
  | modelReturns parsed =>
      cases hp : parsed_is_dict parsed with
      | true =>
          right
          cases parsed with
          | none => simp [parsed_is_dict] at hp
          | some v =>
            cases v with
            | obj m => exact ⟨m, call_gpt_risk_model_obj payload m s hs⟩
            | null => simp [parsed_is_dict] at hp
            | bool b => simp [parsed_is_dict] at hp
            | num q => simp [parsed_is_dict] at hp
            | str s2 => simp [parsed_is_dict] at hp
            | arr xs => simp [parsed_is_dict] at hp
      | false =>
          left
          exact ⟨_, _, call_gpt_risk_model_nonobj payload parsed s hs hp,
                 derived_dir_or s⟩

/-- C3 (amended): every Advisory the Advisory Client returns to a caller
has all eight fields (action, direction, confidence, risk_level, sl_pct,
tp_pct, rationale message, checklist) present, whatever the outcome of
the external call; Advisories produced by the Fallback Policy are
moreover fully type-correct.  Fields supplied by the external model,
however, are passed through without any type validation, so
type-correctness of every returned Advisory does not hold (see the
counterexample). -/
theorem advisory_fields_present :
    (∀ (payload : Dict) (env : GptEnv) (g : Dict),
      call_gpt_risk payload env = .ok g →
      ∀ k ∈ advisory_keys, (dictGet g k).isSome = true)
  ∧ (∀ (payload : Dict) (reason : String) (g : Dict),
      default_gpt_fallback payload reason = .ok g →
      advisory_type_correct g = true) := by
  constructor
  · intro payload env g h
    cases hs : signal_upper payload with
    | error e => rw [call_gpt_risk_err payload env e hs] at h; cases h
    | ok s =>
        rcases call_gpt_risk_ok_shape payload env s hs with ⟨dir, reason, heq, _⟩ | ⟨m, heq⟩
        · rw [heq] at h
          injection h with h
          rw [← h]
          exact fallback_advisory_presence dir reason
        · rw [heq] at h
          injection h with h
          rw [← h]
          exact fill_chain_presence m s
  · intro payload reason g h
    cases hs : signal_upper payload with
    | error e => rw [default_gpt_fallback_err payload reason e hs] at h; cases h
    | ok s =>
        rw [default_gpt_fallback_eq payload reason s hs] at h
        injection h with h
        rw [← h]
        exact fallback_advisory_type_correct _ reason (derived_dir_or s)

/-- Witness for `advisory_fields_present` at a concrete run: the
unconfigured-credential advisory for the empty payload. -/
theorem advisory_fields_present_wit :
    ((dictGet (fallback_advisory "long" "未配置OPENAI_API_KEY") "action").isSome = true)
  ∧ advisory_type_correct (fallback_advisory "long" "未配置OPENAI_API_KEY") = true := by
  refine ⟨advisory_fields_present.1 [] .noKey _ rfl "action" ?_,
          advisory_fields_present.2 [] "未配置OPENAI_API_KEY" _ rfl⟩
  simp [advisory_keys]

/-- C3 counterexample: when the model returns `{"action": "dance"}` the
returned Advisory carries the value `"dance"` for action — not one of
enter/wait — so the returned Advisory is not type-correct as the claim
states; the client performs no type validation. -/
theorem advisory_type_correct_cx :
    (call_gpt_risk [] (.modelReturns (some (Json.obj [("action", Json.str "dance")])))).map
      (fun g => (dictGet g "action", advisory_type_correct g))
    = .ok (some (Json.str "dance"), false) := rfl

/-- C4 (amended): for every payload whose signal value is absent, falsy,
or a string, when no advisory credential is configured the Advisory
Client deterministically returns the Fallback Advisory — action=wait,
confidence=0, risk_level=high, sl_pct=0.9, tp_pct=2.2, the fixed 3-item
checklist, and direction derived from the uppercased signal ("LONG" to
long, "SHORT" to short, anything else to long; in particular absent
signal gives long).  For a payload whose signal is a truthy non-string
value the client instead raises `AttributeError` (see the
counterexample), so the claim does not hold for every payload. -/
theorem fallback_when_unconfigured (payload : Dict) (s : String)
    (h : signal_upper payload = .ok s) :
    call_gpt_risk payload .noKey =
      .ok (fallback_advisory
        (if s = "LONG" then "long" else if s = "SHORT" then "short" else "long")
        "未配置OPENAI_API_KEY")
  ∧ (dictGet payload "signal" = none →
      call_gpt_risk payload .noKey =
        .ok (fallback_advisory "long" "未配置OPENAI_API_KEY")) := by
  constructor
  · exact default_gpt_fallback_eq payload "未配置OPENAI_API_KEY" s h
  · intro habs
    have h0 := signal_upper_of_absent payload habs
    rw [h0] at h
    injection h with h
    subst h
    exact default_gpt_fallback_eq payload "未配置OPENAI_API_KEY" "" h0

/-- Witness for `fallback_when_unconfigured`: a lower-case signal
`"long"` is matched case-insensitively and yields direction long. -/
theorem fallback_when_unconfigured_wit :
    signal_upper [("signal", Json.str "long")] = .ok "LONG"
  ∧ call_gpt_risk [("signal", Json.str "long")] .noKey =
      .ok (fallback_advisory "long" "未配置OPENAI_API_KEY") := by
  have h := (fallback_when_unconfigured [("signal", Json.str "long")] "LONG" rfl).1
  exact ⟨rfl, by rw [h]; rfl⟩

/-- C4 counterexample: for the payload `{"signal": 5}` (a truthy
non-string signal) the unconfigured-credential path raises
`AttributeError` from `(payload.get("signal") or "").upper()` instead of
returning the Fallback Advisory with direction long that the claim
promises for an unrecognized signal. -/
theorem fallback_nonstring_signal_cx :
    call_gpt_risk [("signal", Json.num 5)] .noKey =
      .error (.attributeError "object has no attribute upper") := rfl

/-- C5 (amended): when the external model returns a JSON object and the
payload's signal value is absent, falsy, or a string, each missing
Advisory field is filled with its documented default (action=wait,
confidence=0, risk_level=mid, sl_pct=0.9, tp_pct=2.5, the generic
caution message, the 3-item generic checklist), and every key-value
pair the model provided is preserved unchanged.  For a payload with a
truthy non-string signal the defaulting path raises instead — even when
the model did provide the direction field — because the direction
default argument is evaluated eagerly (see the counterexample). -/
theorem missing_fields_defaulted (payload m : Dict) (s : String)
    (h : signal_upper payload = .ok s) :
    ∃ g : Dict,
      call_gpt_risk payload (.modelReturns (some (Json.obj m))) = .ok g
    ∧ (∀ (k : String) (v : Json), dictGet m k = some v → dictGet g k = some v)
    ∧ (dictGet m "action" = none → dictGet g "action" = some (Json.str "wait"))
    ∧ (dictGet m "confidence" = none → dictGet g "confidence" = some (Json.num 0))
    ∧ (dictGet m "risk_level" = none → dictGet g "risk_level" = some (Json.str "mid"))
    ∧ (dictGet m "sl_pct" = none → dictGet g "sl_pct" = some (Json.num (mkRat 9 10)))
    ∧ (dictGet m "tp_pct" = none → dictGet g "tp_pct" = some (Json.num (mkRat 25 10)))
    ∧ (dictGet m "message_cn" = none →
        dictGet g "message_cn" = some (Json.str "建议谨慎，等待更清晰的结构确认。"))
    ∧ (dictGet m "checklist" = none →
        dictGet g "checklist" = some (Json.arr [Json.str "确认趋势方向",
          Json.str "确认关键位", Json.str "确认波动是否异常"])) := by
  refine ⟨fill_chain m s, call_gpt_risk_model_obj payload m s h,
    fun k v hv => fill_chain_preserve m s k v hv,
    fill_chain_action m s, fill_chain_confidence m s, fill_chain_risk_level m s,
    fill_chain_sl_pct m s, fill_chain_tp_pct m s, fill_chain_message m s,
    fill_chain_checklist m s⟩

/-- C5 counterexample: with the payload `{"signal": 5}` and the model
output `{"action": "enter", "direction": "short"}` the claim promises an
Advisory keeping action and direction and filling the rest; instead the
setdefault chain raises `AttributeError` (the direction default
expression is evaluated eagerly although direction is present), the
except-branch fallback raises again, and no Advisory is produced at
all — nothing is preserved or filled. -/
theorem missing_fields_defaulted_cx :
    call_gpt_risk [("signal", Json.num 5)]
      (.modelReturns (some (Json.obj
        [("action", Json.str "enter"), ("direction", Json.str "short")]))) =
      .error (.attributeError "object has no attribute upper") := rfl

/-- Witness for `missing_fields_defaulted` at end-to-end scenario 3:
the model returns only action=enter and direction=short; those are
preserved and the rest is filled with the documented defaults. -/
theorem missing_fields_defaulted_wit :
    signal_upper [] = .ok ""
  ∧ ∃ g : Dict,
      call_gpt_risk [] (.modelReturns (some (Json.obj
        [("action", Json.str "enter"), ("direction", Json.str "short")]))) = .ok g
    ∧ dictGet g "action" = some (Json.str "enter")
    ∧ dictGet g "direction" = some (Json.str "short")
    ∧ dictGet g "confidence" = some (Json.num 0)
    ∧ dictGet g "risk_level" = some (Json.str "mid")
    ∧ dictGet g "sl_pct" = some (Json.num (mkRat 9 10))
    ∧ dictGet g "tp_pct" = some (Json.num (mkRat 25 10)) := by
  obtain ⟨g, hg, hpres, _, hconf, hrisk, hsl, htp, _, _⟩ :=
    missing_fields_defaulted []
      [("action", Json.str "enter"), ("direction", Json.str "short")] "" rfl
  exact ⟨rfl, g, hg, hpres "action" _ rfl, hpres "direction" _ rfl,
         hconf rfl, hrisk rfl, hsl rfl, htp rfl⟩

/-- C6 (amended): for every normalized payload whose signal value is
absent, falsy, or a string, the Advisory Client returns an Advisory and
lets no exception escape: a transport/service error during the call is
converted to the Fallback Advisory tagged "GPT调用异常" (call exception)
and non-JSON or non-object model output to the Fallback Advisory tagged
"GPT输出非JSON".  For a payload whose signal is a truthy non-string
value, every path of the client raises `AttributeError` outward instead
(see the counterexample), so the claim does not hold for every payload. -/
theorem advisory_client_total (payload : Dict) (s : String) (env : GptEnv)
    (h : signal_upper payload = .ok s) :
    (∃ g : Dict, call_gpt_risk payload env = .ok g)
  ∧ call_gpt_risk payload .callRaises =
      .ok (fallback_advisory
        (if s = "LONG" then "long" else if s = "SHORT" then "short" else "long")
        "GPT调用异常")
  ∧ (∀ parsed : Option Json, parsed_is_dict parsed = false →
      call_gpt_risk payload (.modelReturns parsed) =
        .ok (fallback_advisory
          (if s = "LONG" then "long" else if s = "SHORT" then "short" else "long")
          "GPT输出非JSON")) := by
  refine ⟨?_, default_gpt_fallback_eq payload "GPT调用异常" s h,
          fun parsed hp => call_gpt_risk_model_nonobj payload parsed s h hp⟩
  rcases call_gpt_risk_ok_shape payload env s h with ⟨dir, reason, heq, _⟩ | ⟨m, heq⟩
  · exact ⟨_, heq⟩
  · exact ⟨_, heq⟩

/-- Witness for `advisory_client_total`: the empty payload, a raising
external call, and a non-JSON model output. -/
theorem advisory_client_total_wit :
    signal_upper [] = .ok ""
  ∧ (∃ g : Dict, call_gpt_risk [] .callRaises = .ok g)
  ∧ call_gpt_risk [] (.modelReturns none) =
      .ok (fallback_advisory "long" "GPT输出非JSON") := by
  have h := advisory_client_total [] "" .callRaises rfl
  have h2 := advisory_client_total [] "" (.modelReturns none) rfl
  refine ⟨rfl, h.1, ?_⟩
  rw [h2.2.2 none rfl]
  rfl

/-- C6 counterexample: for the normalized payload `{"signal": true}` a
transport error during the external call is not converted to a Fallback
Advisory — the except-branch fallback itself raises `AttributeError`,
which escapes the Advisory Client. -/
theorem advisory_client_raises_cx :
    call_gpt_risk [("signal", Json.bool true)] .callRaises =
      .error (.attributeError "object has no attribute upper") := rfl

/-- C10: when the model output lacks the direction field, the defaulted
direction is "short" for every payload whose uppercased signal is not
exactly "LONG" — including payloads with no signal at all — whereas the
Fallback Policy defaults the same absent-signal payloads to "long"; so
for any payload without a signal key the two paths disagree. -/
theorem direction_default_asymmetry :
    (∀ (payload m : Dict) (s : String),
      signal_upper payload = .ok s → s ≠ "LONG" → dictGet m "direction" = none →
      (call_gpt_risk payload (.modelReturns (some (Json.obj m)))).map
        (fun g => dictGet g "direction") = .ok (some (Json.str "short")))
  ∧ (∀ (payload : Dict) (reason : String), dictGet payload "signal" = none →
      (∀ m : Dict, dictGet m "direction" = none →
        (call_gpt_risk payload (.modelReturns (some (Json.obj m)))).map
          (fun g => dictGet g "direction") = .ok (some (Json.str "short")))
      ∧ (default_gpt_fallback payload reason).map (fun g => dictGet g "direction")
          = .ok (some (Json.str "long"))) := by
  have main : ∀ (payload m : Dict) (s : String),
      signal_upper payload = .ok s → s ≠ "LONG" → dictGet m "direction" = none →
      (call_gpt_risk payload (.modelReturns (some (Json.obj m)))).map
        (fun g => dictGet g "direction") = .ok (some (Json.str "short")) := by
    intro payload m s hs hneq hdir
    rw [call_gpt_risk_model_obj payload m s hs]
    show Except.ok (dictGet (fill_chain m s) "direction") =
      Except.ok (some (Json.str "short"))
    rw [fill_chain_direction m s hdir, if_neg hneq]
  refine ⟨main, ?_⟩
  intro payload reason habs
  have hs := signal_upper_of_absent payload habs
  refine ⟨fun m hdir => main payload m "" hs (by decide) hdir, ?_⟩
  rw [default_gpt_fallback_eq payload reason "" hs]
  rfl

/-- Witness for `direction_default_asymmetry`: the empty payload (no
signal key) with model output lacking direction yields "short" on the
defaulting path and "long" on the fallback path (with the fallback
reason written as in the Python default argument). -/
theorem direction_default_asymmetry_wit :
    dictGet ([] : Dict) "signal" = none
  ∧ (call_gpt_risk [] (.modelReturns (some (Json.obj [])))).map
      (fun g => dictGet g "direction") = .ok (some (Json.str "short"))
  ∧ (default_gpt_fallback [] "GPT调用失败").map (fun g => dictGet g "direction")
      = .ok (some (Json.str "long")) := by
  have h := direction_default_asymmetry.2 [] "GPT调用失败" rfl
  exact ⟨rfl, h.1 [] rfl, h.2⟩

/-- C1 counterexample: three concrete POST requests violating the claim.
(1) body `123` (valid JSON, not an object): the handler raises
`AttributeError` and the framework turns it into an HTTP 500, so not
every request is acknowledged; (2) body `{}`: the acknowledgment is
returned, but the advisory sits under the key `"gpt"`, not under the
key `"advisory"` named in the spec; (3) body `{"signal": 5}`: the
handler raises `AttributeError` out of its own except-branch fallback
and the request is not acknowledged. -/
theorem handle_webhook_ack_shape_cx :
    ((handle_webhook "123" (some (Json.num 123)) "T" "/tv-webhook"
        ⟨.noKey, true, false, true⟩ []).response =
      .error (.attributeError "object has no attribute setdefault"))
  ∧ ((handle_webhook "\x7b\x7d" (some (Json.obj [])) "T" "/tv-webhook"
        ⟨.noKey, true, false, true⟩ []).response.map
      (fun r => (dictGet r "ok", (dictGet r "gpt").isSome, dictGet r "advisory"))
      = .ok (some (Json.bool true), true, none))
  ∧ ((handle_webhook "\x7b\"signal\": 5\x7d"
        (some (Json.obj [("signal", Json.num 5)])) "T" "/"
        ⟨.noKey, true, false, true⟩ []).response =
      .error (.attributeError "object has no attribute upper")) :=
  ⟨rfl, rfl, rfl⟩

/-- C1 (amended): for every inbound POST on `/` or `/tv-webhook` whose
body either fails to parse as JSON or parses to a JSON object, and whose
normalized payload carries no truthy non-string signal value, the
handler returns the acknowledgment `{ok: true, gpt: <Advisory>}` —
the advisory under the key `"gpt"`, not `"advisory"` — whatever the
outcome of the advisory call, the persistence attempt, or the
notification attempt.  Bodies parsing to JSON non-objects, and payloads
with truthy non-string signal values, instead raise, and that exception
becomes an HTTP error response (see the counterexample). -/
theorem handle_webhook_always_ack (text : String) (parsed : Option Json)
    (now path : String) (env : Env) (db0 : List DbRow)
    (payload : Dict) (s : String)
    (hn : normalize_payload text parsed now = .ok payload)
    (hs : signal_upper payload = .ok s) :
    ∃ g : Dict,
      (handle_webhook text parsed now path env db0).response =
        .ok [("ok", Json.bool true), ("gpt", Json.obj g)] := by
  have hok : ∃ g, call_gpt_risk payload env.gpt = .ok g := by
    rcases call_gpt_risk_ok_shape payload env.gpt s hs with ⟨dir, reason, heq, _⟩ | ⟨m, heq⟩
    · exact ⟨_, heq⟩
    · exact ⟨_, heq⟩
  obtain ⟨g, hg⟩ := hok
  have hstep : gpt_step payload env.gpt = .ok (g, "") := by
    simp [gpt_step, hg]
  refine ⟨g, ?_⟩
  simp [handle_webhook, hn, hstep]

/-- Witness for `handle_webhook_always_ack`: a non-JSON body on a run
where the advisory call raises, the DB insert fails and the WhatsApp
send fails — the acknowledgment is returned anyway. -/
theorem handle_webhook_always_ack_wit :
    normalize_payload "x" none "T" =
      .ok [("raw", Json.str "x"), ("recv_ts_utc", Json.str "T")]
  ∧ signal_upper [("raw", Json.str "x"), ("recv_ts_utc", Json.str "T")] = .ok ""
  ∧ ∃ g : Dict,
      (handle_webhook "x" none "T" "/" ⟨.callRaises, false, true, false⟩ []).response =
        .ok [("ok", Json.bool true), ("gpt", Json.obj g)] :=
  ⟨rfl, rfl,
   handle_webhook_always_ack "x" none "T" "/" ⟨.callRaises, false, true, false⟩ []
     [("raw", Json.str "x"), ("recv_ts_utc", Json.str "T")] "" rfl rfl⟩

/-- C7: a failure of the sqlite insert or of the WhatsApp
formatting/sending never changes the response returned to the webhook
caller (first clause: the response is the same for every combination of
persistence and notification outcomes); a notification failure never
affects the persisted record (second clause: the table contents do not
depend on the notification outcome); and in every run the persistence
attempt precedes the notification attempt (third clause: the effect
trace is either empty — the handler raised before either step — or
exactly a DB attempt followed by a WhatsApp attempt). -/
theorem persistence_notification_isolated
    (text : String) (parsed : Option Json) (now path : String)
    (gptE : GptEnv) (db0 : List DbRow)
    (dbOk twilioC waOk dbOk2 twilioC2 waOk2 : Bool) :
    ((handle_webhook text parsed now path ⟨gptE, dbOk, twilioC, waOk⟩ db0).response =
     (handle_webhook text parsed now path ⟨gptE, dbOk2, twilioC2, waOk2⟩ db0).response)
  ∧ ((handle_webhook text parsed now path ⟨gptE, dbOk, twilioC, waOk⟩ db0).db =
     (handle_webhook text parsed now path ⟨gptE, dbOk, twilioC2, waOk2⟩ db0).db)
  ∧ ((handle_webhook text parsed now path ⟨gptE, dbOk, twilioC, waOk⟩ db0).effects = []
     ∨ ∃ d w : Bool,
        (handle_webhook text parsed now path ⟨gptE, dbOk, twilioC, waOk⟩ db0).effects
         = [Effect.dbAttempt d, Effect.waAttempt w]) := by
  cases hn : normalize_payload text parsed now with
  | error e =>
      refine ⟨?_, ?_, Or.inl ?_⟩ <;> simp [handle_webhook, hn]
  | ok payload =>
      cases hg : gpt_step payload gptE with
      | error e =>
          refine ⟨?_, ?_, Or.inl ?_⟩ <;> simp [handle_webhook, hn, hg]
      | ok p =>
          obtain ⟨g, err⟩ := p
          refine ⟨?_, ?_, ?_⟩
          · simp [handle_webhook, hn, hg]
          · simp [handle_webhook, hn, hg]
          · right
            simp only [handle_webhook, hn, hg]
            exact ⟨_, _, rfl⟩

/-- C8: on a webhook call that completes without error and whose sqlite
insert succeeds, the run appends exactly one row, reading the table
back (its last row) returns that row unchanged, and the row carries
exactly the receipt timestamp, the route path, the raw text
byte-for-byte, the normalized payload serialized by `json.dumps`, the
advisory serialized by `json.dumps`, and an empty error column.
Consequently, whenever the external JSON primitives round-trip on this
run's payload and advisory (the documented behaviour of `json.loads` on
`json.dumps` output, stated here as hypotheses on the modelled
primitives), parsing the stored columns reproduces the normalized
payload and the advisory exactly. -/
theorem log_record_roundtrip
    (text : String) (parsed : Option Json) (now path : String)
    (gptE : GptEnv) (twilioC waOk : Bool) (db0 : List DbRow)
    (payload g : Dict) (ts : Json)
    (hn : normalize_payload text parsed now = .ok payload)
    (hc : call_gpt_risk payload gptE = .ok g)
    (hts : dictGet payload "recv_ts_utc" = some ts) :
    ∃ row : DbRow,
      (handle_webhook text parsed now path ⟨gptE, true, twilioC, waOk⟩ db0).db
        = db0 ++ [row]
    ∧ (handle_webhook text parsed now path ⟨gptE, true, twilioC, waOk⟩ db0).db.getLast?
        = some row
    ∧ row.ts_utc = ts
    ∧ row.path = path
    ∧ row.raw_text = text
    ∧ row.json_payload = json_dumps (Json.obj payload)
    ∧ row.gpt_json = json_dumps (Json.obj g)
    ∧ row.error = ""
    ∧ (json_parse (json_dumps (Json.obj payload)) = some (Json.obj payload) →
        json_parse row.json_payload = some (Json.obj payload))
    ∧ (json_parse (json_dumps (Json.obj g)) = some (Json.obj g) →
        json_parse row.gpt_json = some (Json.obj g)) := by
  have hstep : gpt_step payload gptE = .ok (g, "") := by
    simp [gpt_step, hc]
  have hdb : (handle_webhook text parsed now path ⟨gptE, true, twilioC, waOk⟩ db0).db
      = db0 ++ [db_row payload g path text "" ts] := by
    simp [handle_webhook, hn, hstep, hts]
  refine ⟨db_row payload g path text "" ts, hdb, ?_, rfl, rfl, rfl, rfl, rfl, rfl,
          fun h => h, fun h => h⟩
  rw [hdb]
  rw [List.getLast?_append_of_ne_nil db0 (by simp)]
  rfl

set_option maxRecDepth 100000 in
/-- Witness for `log_record_roundtrip` on a concrete run: the stored
row is read back and its columns parse back to the exact payload and
advisory (the round-trip hypotheses hold by computation for these
values). -/
theorem log_record_roundtrip_wit :
    ∃ row : DbRow,
      (handle_webhook "\x7b\"signal\": \"LONG\"\x7d"
        (some (Json.obj [("signal", Json.str "LONG")])) "2026-01-01T00:00:00"
        "/tv-webhook" ⟨.modelReturns (some (Json.obj sample_model_output)), true, false, true⟩
        []).db = [] ++ [row]
    ∧ row.raw_text = "\x7b\"signal\": \"LONG\"\x7d"
    ∧ json_parse row.json_payload = some (Json.obj sample_payload)
    ∧ json_parse row.gpt_json = some (Json.obj sample_model_output)
    ∧ row.error = "" := by
  obtain ⟨row, h1, _, _, _, h5, _, _, h8, h9, h10⟩ :=
    log_record_roundtrip "\x7b\"signal\": \"LONG\"\x7d"
      (some (Json.obj [("signal", Json.str "LONG")])) "2026-01-01T00:00:00"
      "/tv-webhook" (.modelReturns (some (Json.obj sample_model_output))) false true
      [] sample_payload sample_model_output (Json.str "2026-01-01T00:00:00")
      rfl rfl rfl
  exact ⟨row, h1, h5, h9 rfl, h10 rfl, h8⟩
